import Mathlib

/-!
Shallow embedding of the SN-50 cartridge binary codec
(`src/tinlib/src/cartridge/{chunk.rs, mod.rs, error.rs}`).

Byte streams are modelled as `List Nat` (each entry a byte value).
Readers are state-passing functions returning `Except CartridgeError (α × List Nat)`
(the remaining stream), mirroring the Rust `&mut R: Read` argument.
Writers accumulate a `List Nat`; `Cartridge.save` returns the bytes written
together with an optional error, mirroring a `Cursor<Vec<u8>>` that keeps the
bytes written before a failure.
Machine-integer casts are explicit (`% 256` for `as u8`, `% 65536` for
`as u16`, `% 4294967296` for `as u32`).
-/

/-- Valid chunk sizes, from `chunk.rs`. -/
def END_CHUNK_VALID_SIZE : List Nat := [0]

def COVER_CHUNK_VALID_SIZES : List Nat := [0, 245760]

def FONT_CHUNK_VALID_SIZES : List Nat := [0, 16384]

def PALETTE_CHUNK_VALID_SIZES : List Nat := [0, 4, 8, 16]

def CODE_CHUNK_MAX_SIZE : Nat := 131072

def MAP_CHUNK_MAX_SIZE : Nat := 122880

/-- The Chunk type (`chunk.rs`, `enum ChunkType`). -/
inductive ChunkType where
  | End
  | Cover
  | Code
  | Font
  | Palette
  | Map
deriving DecidableEq

/-- Rust `ChunkType as u8` (discriminant values from the source enum). -/
def ChunkType.toByte : ChunkType → Nat
  | .End => 0
  | .Cover => 1
  | .Code => 2
  | .Font => 3
  | .Palette => 4
  | .Map => 5

/-- Cartridge errors (`error.rs`, `enum CartridgeError`). `usize` payloads are `Nat`. -/
inductive CartridgeError where
  | InvalidChunkType (value : Nat)
  | InvalidChunkSize (chunk_type : ChunkType) (value : Nat) (expected : List Nat)
  | InvalidChunkMaxSize (chunk_type : ChunkType) (value : Nat) (expected : Nat)
  | MismatchedChunkSizes (chunk_type : ChunkType) (header_size : Nat) (data_size : Nat)
  | FromUtf8
  | IoError
deriving DecidableEq

/-- Rust `impl TryFrom<u8> for ChunkType` (`chunk.rs`). -/
def ChunkType.try_from (value : Nat) : Except CartridgeError ChunkType :=
  if value = 0 then .ok .End
  else if value = 1 then .ok .Cover
  else if value = 2 then .ok .Code
  else if value = 3 then .ok .Font
  else if value = 4 then .ok .Palette
  else if value = 5 then .ok .Map
  else .error (.InvalidChunkType value)

/-- Rust `reader.read_u8()`: one byte, `Io` error on exhaustion. -/
def readU8 : List Nat → Except CartridgeError (Nat × List Nat)
  | [] => .error .IoError
  | b :: rest => .ok (b, rest)

/-- Rust `reader.read_u32::<LittleEndian>()`: four bytes, little-endian. -/
def readU32le : List Nat → Except CartridgeError (Nat × List Nat)
  | b0 :: b1 :: b2 :: b3 :: rest =>
      .ok (b0 + 256 * b1 + 65536 * b2 + 16777216 * b3, rest)
  | _ => .error .IoError

/-- Rust `reader.read_u16::<LittleEndian>()`: two bytes, little-endian. -/
def readU16le : List Nat → Except CartridgeError (Nat × List Nat)
  | b0 :: b1 :: rest => .ok (b0 + 256 * b1, rest)
  | _ => .error .IoError

/-- Reading exactly `n` bytes (the `for _ in 0..header.size` loop and
`read_exact`): `Io` error if the stream is exhausted early. -/
def readBytesExact : Nat → List Nat → Except CartridgeError (List Nat × List Nat)
  | 0, s => .ok ([], s)
  | _ + 1, [] => .error .IoError
  | n + 1, b :: s =>
      match readBytesExact n s with
      | .ok (ds, rest) => .ok (b :: ds, rest)
      | .error e => .error e

/-- Little-endian bytes of a `u16` write. -/
def u16le (n : Nat) : List Nat := [n % 256, n / 256 % 256]

/-- Little-endian bytes of a `u32` write. -/
def u32le (n : Nat) : List Nat :=
  [n % 256, n / 256 % 256, n / 65536 % 256, n / 16777216 % 256]

/-- The chunk header (`chunk.rs`, `struct ChunkHeader`). `size` holds a `u32` value. -/
structure ChunkHeader where
  chunk_type : ChunkType
  size : Nat
deriving DecidableEq

/-- Rust `ChunkHeader::new` (`size as u32`). -/
def ChunkHeader.new (chunk_type : ChunkType) (size : Nat) : ChunkHeader :=
  ⟨chunk_type, size % 4294967296⟩

/-- Rust `ChunkHeader::from_reader`: one type byte mapped through `ChunkType::try_from`,
then a little-endian `u32` size. -/
def ChunkHeader.from_reader (s : List Nat) :
    Except CartridgeError (ChunkHeader × List Nat) :=
  match readU8 s with
  | .error e => .error e
  | .ok (b, rest) =>
    match ChunkType.try_from b with
    | .error e => .error e
    | .ok chunk_type =>
      match readU32le rest with
      | .error e => .error e
      | .ok (size, rest2) => .ok (⟨chunk_type, size⟩, rest2)

/-- Rust `ChunkHeader::save`: the bytes written (type tag, then `u32` LE size). -/
def ChunkHeader.save (h : ChunkHeader) : List Nat :=
  h.chunk_type.toByte :: u32le h.size

/-- Rust `ChunkHeader::default`. -/
def ChunkHeader.default : ChunkHeader := ⟨.End, 0⟩

/-- The data chunk (`chunk.rs`, `struct Chunk`). -/
structure Chunk where
  header : ChunkHeader
  data : List Nat
deriving DecidableEq

/-- Rust `Chunk::new`. -/
def Chunk.new (chunk_type : ChunkType) (data : List Nat) : Chunk :=
  ⟨ChunkHeader.new chunk_type data.length, data⟩

/-- Rust `Chunk::chunk_type`. -/
def Chunk.chunk_type (c : Chunk) : ChunkType := c.header.chunk_type

/-- Rust `Chunk::default`. -/
def Chunk.default : Chunk := ⟨ChunkHeader.default, []⟩

/-- Rust `Chunk::validate_end`. The source errors when
`END_CHUNK_VALID_SIZE.contains(&self.data.len())` holds (no negation in the
source condition). -/
def Chunk.validate_end (c : Chunk) : Option CartridgeError :=
  if c.data.length ∈ END_CHUNK_VALID_SIZE then
    some (.InvalidChunkSize c.header.chunk_type c.data.length END_CHUNK_VALID_SIZE)
  else none

/-- Rust `Chunk::validate_cover` (errors when the length is in the valid-size list,
as in the source). -/
def Chunk.validate_cover (c : Chunk) : Option CartridgeError :=
  if c.data.length ∈ COVER_CHUNK_VALID_SIZES then
    some (.InvalidChunkSize c.header.chunk_type c.data.length COVER_CHUNK_VALID_SIZES)
  else none

/-- Rust `Chunk::validate_code` (errors when `data.len() <= CODE_CHUNK_MAX_SIZE`,
as in the source). -/
def Chunk.validate_code (c : Chunk) : Option CartridgeError :=
  if c.data.length ≤ CODE_CHUNK_MAX_SIZE then
    some (.InvalidChunkMaxSize c.header.chunk_type c.data.length CODE_CHUNK_MAX_SIZE)
  else none

/-- Rust `Chunk::validate_font` (errors when the length is in the valid-size list,
as in the source). -/
def Chunk.validate_font (c : Chunk) : Option CartridgeError :=
  if c.data.length ∈ FONT_CHUNK_VALID_SIZES then
    some (.InvalidChunkSize c.header.chunk_type c.data.length FONT_CHUNK_VALID_SIZES)
  else none

/-- Rust `Chunk::validate_palette` (errors when the length is in the valid-size list,
as in the source). -/
def Chunk.validate_palette (c : Chunk) : Option CartridgeError :=
  if c.data.length ∈ PALETTE_CHUNK_VALID_SIZES then
    some (.InvalidChunkSize c.header.chunk_type c.data.length PALETTE_CHUNK_VALID_SIZES)
  else none

/-- Rust `Chunk::validate_map` (errors when `data.len() <= MAP_CHUNK_MAX_SIZE`,
as in the source). -/
def Chunk.validate_map (c : Chunk) : Option CartridgeError :=
  if c.data.length ≤ MAP_CHUNK_MAX_SIZE then
    some (.InvalidChunkMaxSize c.header.chunk_type c.data.length MAP_CHUNK_MAX_SIZE)
  else none

/-- Rust `Chunk::validate`: size-consistency check (`header.size != data.len() as u32`)
then dispatch on the chunk type. -/
def Chunk.validate (c : Chunk) : Option CartridgeError :=
  if c.header.size ≠ c.data.length % 4294967296 then
    some (.MismatchedChunkSizes c.header.chunk_type c.header.size c.data.length)
  else
    match c.chunk_type with
    | .End => c.validate_end
    | .Cover => c.validate_cover
    | .Code => c.validate_code
    | .Font => c.validate_font
    | .Palette => c.validate_palette
    | .Map => c.validate_map

/-- Rust `Chunk::from_reader`: header, then exactly `header.size` payload bytes,
then `validate`. -/
def Chunk.from_reader (s : List Nat) : Except CartridgeError (Chunk × List Nat) :=
  match ChunkHeader.from_reader s with
  | .error e => .error e
  | .ok (header, rest) =>
    match readBytesExact header.size rest with
    | .error e => .error e
    | .ok (data, rest2) =>
      match Chunk.validate ⟨header, data⟩ with
      | some e => .error e
      | none => .ok (⟨header, data⟩, rest2)

/-- Rust `Chunk::save`: validate first, then write the header bytes and the payload. -/
def Chunk.save (c : Chunk) : Except CartridgeError (List Nat) :=
  match c.validate with
  | some e => .error e
  | none => .ok (c.header.save ++ c.data)

/-- Wire bytes of one chunk record (spec section 6 layout): type tag byte,
little-endian `u32` payload length, then the payload verbatim — the bytes a
well-formed chunk of this payload occupies on the stream. -/
def chunk_bytes (t : ChunkType) (d : List Nat) : List Nat :=
  t.toByte :: (u32le d.length ++ d)

/-- Byte in a closed range (helper for the UTF-8 validity check). -/
def inRange (lo hi b : Nat) : Bool := decide (lo ≤ b) && decide (b ≤ hi)

/-- UTF-8 continuation byte (`0x80..=0xBF`). -/
def utf8Cont (b : Nat) : Bool := inRange 128 191 b

/-- Validity of a byte sequence as UTF-8, as checked by the Rust function
`String::from_utf8` (standard UTF-8 well-formedness: shortest form, no
surrogates, max `U+10FFFF`), expressed as the usual acceptance automaton.
State 0 expects a leading byte; states 1/2/3 expect that many unconstrained
continuation bytes; states 4/5/6/7 are the constrained first-continuation
states entered after `E0`/`ED`/`F0`/`F4`. -/
def utf8Dfa : Nat → List Nat → Bool
  | 0, [] => true
  | _ + 1, [] => false
  | st, b :: rest =>
    if st = 0 then
      if b ≤ 127 then utf8Dfa 0 rest
      else if inRange 194 223 b then utf8Dfa 1 rest
      else if b = 224 then utf8Dfa 4 rest
      else if inRange 225 236 b || b = 238 || b = 239 then utf8Dfa 2 rest
      else if b = 237 then utf8Dfa 5 rest
      else if b = 240 then utf8Dfa 6 rest
      else if inRange 241 243 b then utf8Dfa 3 rest
      else if b = 244 then utf8Dfa 7 rest
      else false
    else if st = 1 then if utf8Cont b then utf8Dfa 0 rest else false
    else if st = 2 then if utf8Cont b then utf8Dfa 1 rest else false
    else if st = 3 then if utf8Cont b then utf8Dfa 2 rest else false
    else if st = 4 then if inRange 160 191 b then utf8Dfa 1 rest else false
    else if st = 5 then if inRange 128 159 b then utf8Dfa 1 rest else false
    else if st = 6 then if inRange 144 191 b then utf8Dfa 2 rest else false
    else if st = 7 then if inRange 128 143 b then utf8Dfa 2 rest else false
    else false

/-- A byte list is valid UTF-8 when the automaton accepts it from the start
state. -/
def validUtf8 (bs : List Nat) : Bool := utf8Dfa 0 bs

/-- Rust `String::from_utf8`: returns the byte content when valid (a Rust `String`
is its UTF-8 bytes), a `FromUtf8` error otherwise. -/
def string_from_utf8 (bs : List Nat) : Except CartridgeError (List Nat) :=
  if validUtf8 bs then .ok bs else .error .FromUtf8

/-- The default cartridge file version (`mod.rs`). -/
def DEFAULT_CART_FILE_VERSION : Nat := 1

/-- The default name size (`mod.rs`). -/
def DEFAULT_NAME_SIZE : Nat := 64

/-- The default description size (`mod.rs`). -/
def DEFAULT_DESC_SIZE : Nat := 512

/-- The default author name size (`mod.rs`). -/
def DEFAULT_AUTHOR_SIZE : Nat := 64

/-- The default game version (`mod.rs`). -/
def DEFAULT_VERSION : Nat := 1

/-- The cartridge header (`mod.rs`, `struct CartridgeHeader`):
`u8` cart version, `u8` name size, `u16` desc size, `u8` author size. -/
structure CartridgeHeader where
  cart_version : Nat
  name_size : Nat
  desc_size : Nat
  author_size : Nat
deriving DecidableEq

/-- Rust `CartridgeHeader::default`. -/
def CartridgeHeader.default : CartridgeHeader :=
  ⟨DEFAULT_CART_FILE_VERSION, DEFAULT_NAME_SIZE, DEFAULT_DESC_SIZE, DEFAULT_AUTHOR_SIZE⟩

/-- Rust `CartridgeHeader::from_reader`: `u8`, `u8`, LE `u16`, `u8`, in order. -/
def CartridgeHeader.from_reader (s : List Nat) :
    Except CartridgeError (CartridgeHeader × List Nat) :=
  match readU8 s with
  | .error e => .error e
  | .ok (cart_version, s1) =>
    match readU8 s1 with
    | .error e => .error e
    | .ok (name_size, s2) =>
      match readU16le s2 with
      | .error e => .error e
      | .ok (desc_size, s3) =>
        match readU8 s3 with
        | .error e => .error e
        | .ok (author_size, s4) =>
            .ok (⟨cart_version, name_size, desc_size, author_size⟩, s4)

/-- Rust `CartridgeHeader::save`: the four fields in declared order, `u16` little-endian. -/
def CartridgeHeader.save (h : CartridgeHeader) : List Nat :=
  h.cart_version :: h.name_size :: (u16le h.desc_size ++ [h.author_size])

/-- The cartridge data (`mod.rs`, `struct Cartridge`). Strings (`name`, `desc`,
`author`, `code`) are carried as their UTF-8 byte lists. -/
structure Cartridge where
  version : Nat
  name : List Nat
  desc : List Nat
  author : List Nat
  cover : List Nat
  font : List Nat
  palette : List Nat
  map : List Nat
  code : List Nat
deriving DecidableEq

/-- Rust `Cartridge::default`. -/
def Cartridge.default : Cartridge :=
  ⟨DEFAULT_VERSION, [], [], [], [], [], [], [], []⟩

/-- Decreasing fact for the decode loop, as a definition so that the
termination argument of the loop precedes the theorem development: a successful
`Chunk::from_reader` consumes at least the five header bytes, so the remaining
stream is strictly shorter. -/
def read_chunks_termination : ∀ {s : List Nat} {c : Chunk} {r : List Nat},
    Chunk.from_reader s = .ok (c, r) → r.length < s.length := by
  intro s c r hp
  have hb : ∀ (n : Nat) (s2 ds r2 : List Nat),
      readBytesExact n s2 = .ok (ds, r2) → r2.length + n = s2.length := by
    intro n
    induction n with
    | zero =>
      intro s2 ds r2 hh
      unfold readBytesExact at hh
      cases hh
      simp
    | succ m ih =>
      intro s2 ds r2 hh
      cases s2 with
      | nil => simp [readBytesExact] at hh
      | cons b t =>
        unfold readBytesExact at hh
        split at hh
        · rename_i ds2 r3 hrec
          cases hh
          have hlen := ih t ds2 _ hrec
          simp only [List.length_cons]
          omega
        · simp at hh
  have hu32 : ∀ (s2 : List Nat) (v : Nat) (r2 : List Nat),
      readU32le s2 = .ok (v, r2) → r2.length + 4 = s2.length := by
    intro s2 v r2 hh
    unfold readU32le at hh
    split at hh
    · cases hh; simp
    · simp at hh
  have hch : ∀ (s2 : List Nat) (hd : ChunkHeader) (r2 : List Nat),
      ChunkHeader.from_reader s2 = .ok (hd, r2) → r2.length + 5 = s2.length := by
    intro s2 hd r2 hh
    unfold ChunkHeader.from_reader at hh
    split at hh
    · simp at hh
    · rename_i b rest2 hrb
      split at hh
      · simp at hh
      · split at hh
        · simp at hh
        · rename_i sz r3 hsz
          cases hh
          have h4 := hu32 _ _ _ hsz
          have h5 : rest2.length + 1 = s2.length := by
            cases s2 with
            | nil => simp [readU8] at hrb
            | cons x t => cases hrb; simp
          omega
  unfold Chunk.from_reader at hp
  split at hp
  · simp at hp
  · rename_i hd rest1 h1
    split at hp
    · simp at hp
    · rename_i data rest2 h2
      split at hp
      · simp at hp
      · cases hp
        have ha := hch _ _ _ h1
        have hb2 := hb _ _ _ _ h2
        omega

/-- The chunk-accumulation loop of `Cartridge::from_reader`: decode one chunk,
dispatch on its type (each assignment overwrites the field), stop at `End`. -/
def read_chunks (cart : Cartridge) (s : List Nat) :
    Except CartridgeError (Cartridge × List Nat) :=
  match h : Chunk.from_reader s with
  | .error e => .error e
  | .ok (chunk, rest) =>
    match chunk.chunk_type with
    | .End => .ok (cart, rest)
    | .Cover => read_chunks { cart with cover := chunk.data } rest
    | .Code =>
      match string_from_utf8 chunk.data with
      | .error e => .error e
      | .ok code => read_chunks { cart with code := code } rest
    | .Font => read_chunks { cart with font := chunk.data } rest
    | .Palette => read_chunks { cart with palette := chunk.data } rest
    | .Map => read_chunks { cart with map := chunk.data } rest
termination_by s.length
decreasing_by
  all_goals exact read_chunks_termination h

/-- Rust `Cartridge::from_reader`: header, data version byte, the three
length-prefixed UTF-8 strings, then the chunk loop. -/
def Cartridge.from_reader (s : List Nat) :
    Except CartridgeError (Cartridge × List Nat) :=
  match CartridgeHeader.from_reader s with
  | .error e => .error e
  | .ok (header, s1) =>
    match readU8 s1 with
    | .error e => .error e
    | .ok (version, s2) =>
      match readBytesExact header.name_size s2 with
      | .error e => .error e
      | .ok (nameB, s3) =>
        match string_from_utf8 nameB with
        | .error e => .error e
        | .ok name =>
          match readBytesExact header.desc_size s3 with
          | .error e => .error e
          | .ok (descB, s4) =>
            match string_from_utf8 descB with
            | .error e => .error e
            | .ok desc =>
              match readBytesExact header.author_size s4 with
              | .error e => .error e
              | .ok (authorB, s5) =>
                match string_from_utf8 authorB with
                | .error e => .error e
                | .ok author =>
                  read_chunks
                    { Cartridge.default with
                        version := version, name := name,
                        desc := desc, author := author } s5

/-- The chunk-emission loop of `Cartridge::save`: wrap each field in a `Chunk`
of the matching type and encode it, stopping at the first error; the bytes
written before a failure remain in the writer. -/
def saveChunkList (acc : List Nat) :
    List (List Nat × ChunkType) → List Nat × Option CartridgeError
  | [] => (acc, none)
  | (data, chunk_type) :: rest =>
    match (Chunk.new chunk_type data).save with
    | .error e => (acc, some e)
    | .ok bs => saveChunkList (acc ++ bs) rest

/-- Rust `Cartridge::save`: header recomputed from the actual string lengths
(`as u8` / `as u16` casts), data version byte, raw string bytes, one chunk per
non-empty field in the fixed order Cover, Code, Font, Palette, Map, then the
`End` chunk (`Chunk::default`). Returns the bytes written and the error, if any. -/
def Cartridge.save (c : Cartridge) : List Nat × Option CartridgeError :=
  let header : CartridgeHeader :=
    { CartridgeHeader.default with
        name_size := c.name.length % 256,
        desc_size := c.desc.length % 65536,
        author_size := c.author.length % 256 }
  let pre := header.save ++ c.version :: (c.name ++ c.desc ++ c.author)
  let chunks := [(c.cover, ChunkType.Cover), (c.code, ChunkType.Code),
                 (c.font, ChunkType.Font), (c.palette, ChunkType.Palette),
                 (c.map, ChunkType.Map)]
  match saveChunkList pre (chunks.filter (fun p => !p.1.isEmpty)) with
  | (acc, some e) => (acc, some e)
  | (acc, none) =>
    match Chunk.default.save with
    | .error e => (acc, some e)
    | .ok bs => (acc ++ bs, none)

theorem readBytesExact_consumes : ∀ (n : Nat) (s ds r : List Nat),
    readBytesExact n s = .ok (ds, r) → ds.length = n ∧ r.length + n = s.length := by
  intro n
  induction n with
  | zero =>
    intro s ds r h
    unfold readBytesExact at h
    cases h
    simp
  | succ m ih =>
    intro s ds r h
    cases s with
    | nil => simp [readBytesExact] at h
    | cons b t =>
      unfold readBytesExact at h
      split at h
      · rename_i ds2 r2 hrec
        cases h
        obtain ⟨h1, h2⟩ := ih t ds2 r hrec
        refine ⟨by simp [h1], by simp; omega⟩
      · simp at h

theorem readBytesExact_append : ∀ (l r : List Nat),
    readBytesExact l.length (l ++ r) = .ok (l, r) := by
  intro l r
  induction l with
  | nil => rfl
  | cons b t ih => simp [readBytesExact, ih]

theorem readU8_error {s : List Nat} {e : CartridgeError}
    (h : readU8 s = .error e) : e = .IoError := by
  cases s with
  | nil => cases h; rfl
  | cons b t => simp [readU8] at h

theorem readU32le_error {s : List Nat} {e : CartridgeError}
    (h : readU32le s = .error e) : e = .IoError := by
  unfold readU32le at h
  split at h
  · simp at h
  · cases h; rfl

theorem readBytesExact_error : ∀ (n : Nat) (s : List Nat) (e : CartridgeError),
    readBytesExact n s = .error e → e = .IoError := by
  intro n
  induction n with
  | zero => intro s e h; simp [readBytesExact] at h
  | succ m ih =>
    intro s e h
    cases s with
    | nil => cases h; rfl
    | cons b t =>
      unfold readBytesExact at h
      split at h
      · simp at h
      · rename_i e2 hrec
        cases h
        exact ih t e hrec

theorem ChunkType.try_from_error {b : Nat} {e : CartridgeError}
    (h : ChunkType.try_from b = .error e) : e = .InvalidChunkType b := by
  unfold ChunkType.try_from at h
  split_ifs at h <;> simp_all

theorem readU32le_bound {s : List Nat} {v : Nat} {r : List Nat}
    (h : readU32le s = .ok (v, r)) (hb : ∀ b ∈ s, b < 256) : v < 4294967296 := by
  unfold readU32le at h
  split at h
  · rename_i b0 b1 b2 b3 rest
    cases h
    have h0 := hb b0 (by simp)
    have h1 := hb b1 (by simp)
    have h2 := hb b2 (by simp)
    have h3 := hb b3 (by simp)
    omega
  · simp at h

theorem ChunkHeader.from_reader_error_shape {s : List Nat} {e : CartridgeError}
    (h : ChunkHeader.from_reader s = .error e) :
    e = .IoError ∨ ∃ b, e = .InvalidChunkType b := by
  unfold ChunkHeader.from_reader at h
  split at h
  · rename_i e2 h2; cases h; exact .inl (readU8_error h2)
  · split at h
    · rename_i e2 h2; cases h; exact .inr ⟨_, ChunkType.try_from_error h2⟩
    · split at h
      · rename_i e2 h2; cases h; exact .inl (readU32le_error h2)
      · simp at h

theorem ChunkHeader.from_reader_size_bound {s : List Nat} {hd : ChunkHeader} {r : List Nat}
    (h : ChunkHeader.from_reader s = .ok (hd, r)) (hb : ∀ b ∈ s, b < 256) :
    hd.size < 4294967296 := by
  unfold ChunkHeader.from_reader at h
  split at h
  · simp at h
  · rename_i b rest hrb
    split at h
    · simp at h
    · split at h
      · simp at h
      · rename_i sz r2 h32
        cases h
        have hsub : ∀ x ∈ rest, x < 256 := by
          intro x hx
          apply hb
          cases s with
          | nil => simp [readU8] at hrb
          | cons y t => cases hrb; simp [hx]
        exact readU32le_bound h32 hsub

theorem validate_not_mismatched {ct : ChunkType} {sz : Nat} {data : List Nat}
    (hsz : sz = data.length) (h32 : sz < 4294967296) (t : ChunkType) (a b2 : Nat) :
    Chunk.validate ⟨⟨ct, sz⟩, data⟩ ≠ some (.MismatchedChunkSizes t a b2) := by
  unfold Chunk.validate
  rw [if_neg]
  · cases ct <;>
      simp only [Chunk.chunk_type, Chunk.validate_end, Chunk.validate_cover,
        Chunk.validate_code, Chunk.validate_font, Chunk.validate_palette,
        Chunk.validate_map] <;>
      split <;> simp
  · subst hsz
    simp [Nat.mod_eq_of_lt h32]

/-- Claim C8: a chunk built by `Chunk::from_reader` always has
`header.size == data.len()` (exactly `header.size` payload bytes are read), so
the decode path can never surface `MismatchedChunkSizes`. -/
theorem claim_c8_mismatched_unreachable (s : List Nat) (hb : ∀ b ∈ s, b < 256) :
    (∀ t a b2, Chunk.from_reader s ≠ .error (.MismatchedChunkSizes t a b2)) ∧
    (∀ c rest, Chunk.from_reader s = .ok (c, rest) → c.header.size = c.data.length) := by
  constructor
  · intro t a b2 h
    unfold Chunk.from_reader at h
    split at h
    · rename_i e2 h2
      cases h
      rcases ChunkHeader.from_reader_error_shape h2 with h3 | ⟨b, h3⟩ <;> simp at h3
    · rename_i hd rest h2
      split at h
      · rename_i e2 h3
        cases h
        have := readBytesExact_error _ _ _ h3
        simp at this
      · rename_i data rest2 h3
        split at h
        · rename_i e2 h4
          cases h
          obtain ⟨hct, hsz⟩ := hd
          exact validate_not_mismatched
            ((readBytesExact_consumes _ _ _ _ h3).1).symm
            (ChunkHeader.from_reader_size_bound h2 hb) t a b2 h4
        · simp at h
  · intro c rest h
    unfold Chunk.from_reader at h
    split at h
    · simp at h
    · rename_i hd rest1 h2
      split at h
      · simp at h
      · rename_i data rest2 h3
        split at h
        · simp at h
        · cases h
          exact ((readBytesExact_consumes _ _ _ _ h3).1).symm

/-- Witness for C8 at a concrete stream (a Palette chunk of payload length 1,
which the inverted validation of the source accepts). -/
theorem claim_c8_witness :
    (∀ b ∈ [4, 1, 0, 0, 0, 9], b < 256) ∧
    Chunk.from_reader [4, 1, 0, 0, 0, 9] ≠
      .error (.MismatchedChunkSizes .Palette 1 1) ∧
    ((⟨⟨.Palette, 1⟩, [9]⟩ : Chunk).header.size =
      (⟨⟨.Palette, 1⟩, [9]⟩ : Chunk).data.length) :=
  ⟨by decide,
   (claim_c8_mismatched_unreachable [4, 1, 0, 0, 0, 9] (by decide)).1 .Palette 1 1,
   (claim_c8_mismatched_unreachable [4, 1, 0, 0, 0, 9] (by decide)).2
     ⟨⟨.Palette, 1⟩, [9]⟩ [] (by rfl)⟩

/-- Claim C5: a chunk tag byte of 6 or more is rejected by both
`ChunkHeader::from_reader` and `Chunk::from_reader` with `InvalidChunkType`
carrying the offending byte, and the bytes 0..=5 map to
End, Cover, Code, Font, Palette, Map respectively. -/
theorem claim_c5_chunk_tag_bytes (b : Nat) (rest : List Nat) (h6 : 6 ≤ b) :
    Chunk.from_reader (b :: rest) = .error (.InvalidChunkType b) ∧
    ChunkHeader.from_reader (b :: rest) = .error (.InvalidChunkType b) ∧
    ChunkType.try_from 0 = .ok .End ∧
    ChunkType.try_from 1 = .ok .Cover ∧
    ChunkType.try_from 2 = .ok .Code ∧
    ChunkType.try_from 3 = .ok .Font ∧
    ChunkType.try_from 4 = .ok .Palette ∧
    ChunkType.try_from 5 = .ok .Map := by
  have h0 : b ≠ 0 := by omega
  have h1 : b ≠ 1 := by omega
  have h2 : b ≠ 2 := by omega
  have h3 : b ≠ 3 := by omega
  have h4 : b ≠ 4 := by omega
  have h5 : b ≠ 5 := by omega
  have ht : ChunkType.try_from b = .error (.InvalidChunkType b) := by
    simp [ChunkType.try_from, h0, h1, h2, h3, h4, h5]
  have hh : ChunkHeader.from_reader (b :: rest) = .error (.InvalidChunkType b) := by
    unfold ChunkHeader.from_reader
    simp [readU8, ht]
  refine ⟨?_, hh, rfl, rfl, rfl, rfl, rfl, rfl⟩
  unfold Chunk.from_reader
  simp [hh]

/-- Witness for C5 at the concrete tag byte 6. -/
theorem claim_c5_witness :
    6 ≤ 6 ∧
    (Chunk.from_reader [6] = .error (.InvalidChunkType 6) ∧
     ChunkHeader.from_reader [6] = .error (.InvalidChunkType 6) ∧
     ChunkType.try_from 0 = .ok .End ∧
     ChunkType.try_from 1 = .ok .Cover ∧
     ChunkType.try_from 2 = .ok .Code ∧
     ChunkType.try_from 3 = .ok .Font ∧
     ChunkType.try_from 4 = .ok .Palette ∧
     ChunkType.try_from 5 = .ok .Map) :=
  ⟨by decide, claim_c5_chunk_tag_bytes 6 [] (by decide)⟩

theorem read_chunks_error {cart : Cartridge} {s : List Nat} {e : CartridgeError}
    (h : Chunk.from_reader s = .error e) : read_chunks cart s = .error e := by
  unfold read_chunks
  split
  · rename_i e2 heq
    rw [h] at heq
    cases heq
    rfl
  · rename_i chunk rest heq
    rw [h] at heq
    cases heq

theorem read_chunks_end {cart : Cartridge} {s rest : List Nat} {c : Chunk}
    (h : Chunk.from_reader s = .ok (c, rest)) (ht : c.chunk_type = .End) :
    read_chunks cart s = .ok (cart, rest) := by
  unfold read_chunks
  split
  · rename_i e2 heq
    rw [h] at heq
    cases heq
  · rename_i chunk rest2 heq
    rw [h] at heq
    cases heq
    rw [ht]

theorem read_chunks_cover {cart : Cartridge} {s rest : List Nat} {c : Chunk}
    (h : Chunk.from_reader s = .ok (c, rest)) (ht : c.chunk_type = .Cover) :
    read_chunks cart s = read_chunks { cart with cover := c.data } rest := by
  rw [read_chunks.eq_def]
  split
  · rename_i e2 heq
    rw [h] at heq
    cases heq
  · rename_i chunk rest2 heq
    rw [h] at heq
    cases heq
    rw [ht]

/-- Claim C1 (code bug): round-trip is impossible because `Cartridge::save`
always fails — the final `End` chunk (size 0) is rejected by the inverted
`validate_end`, even on the all-empty default cartridge, whose fields satisfy
every size invariant of the spec. -/
theorem claim_c1_save_rejects_every_valid_cartridge :
    Cartridge.default.save =
      ([1, 0, 0, 0, 0, 1], some (.InvalidChunkSize .End 0 [0])) := rfl

/-- Claim C2 (code bug): on the concrete example cartridge of the spec, `save` stops
with `InvalidChunkMaxSize(Code, 6, 131072)` after the header/version/name bytes
(the inverted `validate_code` rejects the 6-byte payload), and `from_reader` on
the 24-byte example stream of the spec fails with the same error instead of
reproducing the cartridge. -/
theorem claim_c2_example_cartridge_rejected :
    Cartridge.save ⟨11, [104, 105], [], [], [], [], [], [], [109, 97, 105, 110, 40, 41]⟩ =
      ([1, 2, 0, 0, 0, 11, 104, 105], some (.InvalidChunkMaxSize .Code 6 131072)) ∧
    Cartridge.from_reader
        [1, 2, 0, 0, 0, 11, 104, 105, 2, 6, 0, 0, 0, 109, 97, 105, 110, 40, 41, 0, 0, 0, 0, 0] =
      .error (.InvalidChunkMaxSize .Code 6 131072) := by
  refine ⟨rfl, ?_⟩
  show read_chunks ⟨11, [104, 105], [], [], [], [], [], [], []⟩
      [2, 6, 0, 0, 0, 109, 97, 105, 110, 40, 41, 0, 0, 0, 0, 0] = _
  exact read_chunks_error rfl

/-- Claim C4 (code bug): with all five optional fields empty, `save` writes
exactly the header, version byte and string bytes and no intermediate chunk,
but then fails on the mandatory `End` chunk instead of succeeding. -/
theorem claim_c4_empty_fields_save (c : Cartridge) (h1 : c.cover = []) (h2 : c.font = [])
    (h3 : c.palette = []) (h4 : c.map = []) (h5 : c.code = []) :
    c.save = (1 :: (c.name.length % 256) :: (c.desc.length % 65536 % 256) ::
        (c.desc.length % 65536 / 256 % 256) :: (c.author.length % 256) :: c.version ::
        (c.name ++ c.desc ++ c.author),
      some (.InvalidChunkSize .End 0 [0])) := by
  obtain ⟨v, n, d, a, cov, f, p, m, cd⟩ := c
  dsimp only at h1 h2 h3 h4 h5
  subst h1 h2 h3 h4 h5
  rfl

/-- Witness for C4 at the default cartridge. -/
theorem claim_c4_witness :
    (Cartridge.default.cover = [] ∧ Cartridge.default.font = [] ∧
     Cartridge.default.palette = [] ∧ Cartridge.default.map = [] ∧
     Cartridge.default.code = []) ∧
    Cartridge.default.save = (1 :: (Cartridge.default.name.length % 256) ::
        (Cartridge.default.desc.length % 65536 % 256) ::
        (Cartridge.default.desc.length % 65536 / 256 % 256) ::
        (Cartridge.default.author.length % 256) :: Cartridge.default.version ::
        (Cartridge.default.name ++ Cartridge.default.desc ++ Cartridge.default.author),
      some (.InvalidChunkSize .End 0 [0])) :=
  ⟨⟨rfl, rfl, rfl, rfl, rfl⟩,
   claim_c4_empty_fields_save Cartridge.default rfl rfl rfl rfl rfl⟩

/-- Claim C6 (code bug): truncation mid-cartridge-header, before any chunk,
mid-chunk-header and mid-payload all yield `Io` errors as claimed, but a
stream terminated by the canonical empty `End` chunk `{0,0,0,0,0}` is
rejected with `InvalidChunkSize(End, 0, [0])` instead of decoding
successfully, so decoding can never stop at a well-formed `End` chunk. -/
theorem claim_c6_truncation_and_end_rejection :
    Cartridge.from_reader [1, 0, 0, 0] = .error .IoError ∧
    Cartridge.from_reader [1, 0, 0, 0, 0, 1] = .error .IoError ∧
    Cartridge.from_reader [1, 0, 0, 0, 0, 1, 2, 6, 0, 0] = .error .IoError ∧
    Cartridge.from_reader [1, 0, 0, 0, 0, 1, 1, 5, 0, 0, 0, 9, 9] = .error .IoError ∧
    Cartridge.from_reader [1, 0, 0, 0, 0, 1, 0, 0, 0, 0, 0] =
      .error (.InvalidChunkSize .End 0 [0]) := by
  refine ⟨rfl, ?_, ?_, ?_, ?_⟩
  · show read_chunks ⟨1, [], [], [], [], [], [], [], []⟩ [] = _
    exact read_chunks_error rfl
  · show read_chunks ⟨1, [], [], [], [], [], [], [], []⟩ [2, 6, 0, 0] = _
    exact read_chunks_error rfl
  · show read_chunks ⟨1, [], [], [], [], [], [], [], []⟩ [1, 5, 0, 0, 0, 9, 9] = _
    exact read_chunks_error rfl
  · show read_chunks ⟨1, [], [], [], [], [], [], [], []⟩ [0, 0, 0, 0, 0] = _
    exact read_chunks_error rfl

/-- Claim C3 (code bug): every size gate is inverted. A Font chunk of length 1
(neither 0 nor 16384) encodes successfully, while the legal length 16384 is
rejected with `InvalidChunkSize`; a Code chunk of length 131073 encodes
successfully while the legal maximum 131072 is rejected with
`InvalidChunkMaxSize`; a Palette chunk of length 5 encodes successfully while
the legal length 4 is rejected. -/
theorem claim_c3_size_gates_inverted (dF dBigF dC dHugeC dP dVP : List Nat)
    (hF : dF.length = 1) (hBigF : dBigF.length = 16384) (hC : dC.length = 131072)
    (hHugeC : dHugeC.length = 131073) (hP : dP.length = 5) (hVP : dVP.length = 4) :
    (Chunk.new .Font dF).save = .ok (3 :: u32le 1 ++ dF) ∧
    (Chunk.new .Font dBigF).save =
      .error (.InvalidChunkSize .Font 16384 FONT_CHUNK_VALID_SIZES) ∧
    (Chunk.new .Code dHugeC).save = .ok (2 :: u32le 131073 ++ dHugeC) ∧
    (Chunk.new .Code dC).save =
      .error (.InvalidChunkMaxSize .Code 131072 CODE_CHUNK_MAX_SIZE) ∧
    (Chunk.new .Palette dP).save = .ok (4 :: u32le 5 ++ dP) ∧
    (Chunk.new .Palette dVP).save =
      .error (.InvalidChunkSize .Palette 4 PALETTE_CHUNK_VALID_SIZES) := by
  refine ⟨?_, ?_, ?_, ?_, ?_, ?_⟩
  · have hv : (Chunk.new .Font dF).validate = none := by
      unfold Chunk.validate Chunk.new ChunkHeader.new Chunk.chunk_type Chunk.validate_font
      rw [hF]
      norm_num [FONT_CHUNK_VALID_SIZES]
    unfold Chunk.save
    rw [hv]
    unfold Chunk.new ChunkHeader.new ChunkHeader.save ChunkType.toByte
    rw [hF]
  · have hv : (Chunk.new .Font dBigF).validate =
        some (.InvalidChunkSize .Font 16384 FONT_CHUNK_VALID_SIZES) := by
      unfold Chunk.validate Chunk.new ChunkHeader.new Chunk.chunk_type Chunk.validate_font
      rw [hBigF]
      norm_num [FONT_CHUNK_VALID_SIZES]
    unfold Chunk.save
    rw [hv]
  · have hv : (Chunk.new .Code dHugeC).validate = none := by
      unfold Chunk.validate Chunk.new ChunkHeader.new Chunk.chunk_type Chunk.validate_code
      rw [hHugeC]
      norm_num [CODE_CHUNK_MAX_SIZE]
    unfold Chunk.save
    rw [hv]
    unfold Chunk.new ChunkHeader.new ChunkHeader.save ChunkType.toByte
    rw [hHugeC]
  · have hv : (Chunk.new .Code dC).validate =
        some (.InvalidChunkMaxSize .Code 131072 CODE_CHUNK_MAX_SIZE) := by
      unfold Chunk.validate Chunk.new ChunkHeader.new Chunk.chunk_type Chunk.validate_code
      rw [hC]
      norm_num [CODE_CHUNK_MAX_SIZE]
    unfold Chunk.save
    rw [hv]
  · have hv : (Chunk.new .Palette dP).validate = none := by
      unfold Chunk.validate Chunk.new ChunkHeader.new Chunk.chunk_type Chunk.validate_palette
      rw [hP]
      norm_num [PALETTE_CHUNK_VALID_SIZES]
    unfold Chunk.save
    rw [hv]
    unfold Chunk.new ChunkHeader.new ChunkHeader.save ChunkType.toByte
    rw [hP]
  · have hv : (Chunk.new .Palette dVP).validate =
        some (.InvalidChunkSize .Palette 4 PALETTE_CHUNK_VALID_SIZES) := by
      unfold Chunk.validate Chunk.new ChunkHeader.new Chunk.chunk_type Chunk.validate_palette
      rw [hVP]
      norm_num [PALETTE_CHUNK_VALID_SIZES]
    unfold Chunk.save
    rw [hv]

/-- Witness for C3 at concrete payloads. -/
theorem claim_c3_witness :
    ((List.replicate 1 0).length = 1 ∧ (List.replicate 16384 0).length = 16384 ∧
     (List.replicate 131072 0).length = 131072 ∧
     (List.replicate 131073 0).length = 131073 ∧
     (List.replicate 5 0).length = 5 ∧ (List.replicate 4 0).length = 4) ∧
    ((Chunk.new .Font (List.replicate 1 0)).save = .ok (3 :: u32le 1 ++ List.replicate 1 0) ∧
     (Chunk.new .Font (List.replicate 16384 0)).save =
       .error (.InvalidChunkSize .Font 16384 FONT_CHUNK_VALID_SIZES) ∧
     (Chunk.new .Code (List.replicate 131073 0)).save =
       .ok (2 :: u32le 131073 ++ List.replicate 131073 0) ∧
     (Chunk.new .Code (List.replicate 131072 0)).save =
       .error (.InvalidChunkMaxSize .Code 131072 CODE_CHUNK_MAX_SIZE) ∧
     (Chunk.new .Palette (List.replicate 5 0)).save =
       .ok (4 :: u32le 5 ++ List.replicate 5 0) ∧
     (Chunk.new .Palette (List.replicate 4 0)).save =
       .error (.InvalidChunkSize .Palette 4 PALETTE_CHUNK_VALID_SIZES)) :=
  ⟨⟨by rw [List.length_replicate], by rw [List.length_replicate],
    by rw [List.length_replicate], by rw [List.length_replicate],
    by rw [List.length_replicate], by rw [List.length_replicate]⟩,
   claim_c3_size_gates_inverted _ _ _ _ _ _
     (by rw [List.length_replicate]) (by rw [List.length_replicate])
     (by rw [List.length_replicate]) (by rw [List.length_replicate])
     (by rw [List.length_replicate]) (by rw [List.length_replicate])⟩

theorem saveChunkList_extends : ∀ (l : List (List Nat × ChunkType)) (acc : List Nat),
    ∃ t2, (saveChunkList acc l).1 = acc ++ t2 := by
  intro l
  induction l with
  | nil => intro acc; exact ⟨[], by simp [saveChunkList]⟩
  | cons p rest ih =>
    intro acc
    obtain ⟨data, ct⟩ := p
    unfold saveChunkList
    cases h : (Chunk.new ct data).save with
    | error e => exact ⟨[], by simp⟩
    | ok bs =>
      obtain ⟨t2, ht⟩ := ih (acc ++ bs)
      exact ⟨bs ++ t2, by simp [ht]⟩

theorem cartridge_save_unfolded (c : Cartridge) :
    c.save =
      match saveChunkList
          (CartridgeHeader.save
            { CartridgeHeader.default with
                name_size := c.name.length % 256,
                desc_size := c.desc.length % 65536,
                author_size := c.author.length % 256 } ++
            c.version :: (c.name ++ c.desc ++ c.author))
          ([(c.cover, ChunkType.Cover), (c.code, ChunkType.Code),
            (c.font, ChunkType.Font), (c.palette, ChunkType.Palette),
            (c.map, ChunkType.Map)].filter (fun p => !p.1.isEmpty)) with
      | (acc, some e) => (acc, some e)
      | (acc, none) =>
        match Chunk.default.save with
        | .error e => (acc, some e)
        | .ok bs => (acc ++ bs, none) := rfl

theorem cartridge_save_shape (c : Cartridge) :
    (∃ t2, (c.save).1 =
      1 :: (c.name.length % 256) :: (c.desc.length % 65536 % 256) ::
      (c.desc.length % 65536 / 256 % 256) :: (c.author.length % 256) :: c.version ::
      ((c.name ++ c.desc ++ c.author) ++ t2)) ∧ (c.save).2 ≠ none := by
  have hpre : CartridgeHeader.save
      { CartridgeHeader.default with
          name_size := c.name.length % 256,
          desc_size := c.desc.length % 65536,
          author_size := c.author.length % 256 } ++
        c.version :: (c.name ++ c.desc ++ c.author) =
      1 :: (c.name.length % 256) :: (c.desc.length % 65536 % 256) ::
      (c.desc.length % 65536 / 256 % 256) :: (c.author.length % 256) :: c.version ::
      (c.name ++ c.desc ++ c.author) := by
    simp [CartridgeHeader.save, CartridgeHeader.default, u16le, DEFAULT_CART_FILE_VERSION]
  obtain ⟨t2, ht⟩ := saveChunkList_extends
    ([(c.cover, ChunkType.Cover), (c.code, ChunkType.Code),
      (c.font, ChunkType.Font), (c.palette, ChunkType.Palette),
      (c.map, ChunkType.Map)].filter (fun p => !p.1.isEmpty))
    (CartridgeHeader.save
      { CartridgeHeader.default with
          name_size := c.name.length % 256,
          desc_size := c.desc.length % 65536,
          author_size := c.author.length % 256 } ++
      c.version :: (c.name ++ c.desc ++ c.author))
  rw [hpre] at ht
  rw [cartridge_save_unfolded]
  cases hsl : saveChunkList
      (CartridgeHeader.save
        { CartridgeHeader.default with
            name_size := c.name.length % 256,
            desc_size := c.desc.length % 65536,
            author_size := c.author.length % 256 } ++
        c.version :: (c.name ++ c.desc ++ c.author))
      ([(c.cover, ChunkType.Cover), (c.code, ChunkType.Code),
        (c.font, ChunkType.Font), (c.palette, ChunkType.Palette),
        (c.map, ChunkType.Map)].filter (fun p => !p.1.isEmpty)) with
  | mk acc err =>
    rw [hpre] at hsl
    rw [hsl] at ht
    cases err with
    | some e =>
      refine ⟨⟨t2, ?_⟩, by simp⟩
      simpa using ht
    | none =>
      have hend : Chunk.default.save = .error (.InvalidChunkSize .End 0 [0]) := rfl
      refine ⟨⟨t2, ?_⟩, ?_⟩
      · simp only [hend]
        simpa using ht
      · simp only [hend]
        simp

/-- Claim C7: when the strings fit their size fields, the header that
`Cartridge::save` writes carries the actual byte lengths of name/desc/author
(desc as a little-endian `u16`), its `cart_version` is the format default 1
regardless of the own `version` field of the cartridge, whose `version` is
written as a data byte immediately after the 5-byte header. -/
theorem claim_c7_header_from_actual_lengths (c : Cartridge) (hn : c.name.length ≤ 255)
    (hd : c.desc.length ≤ 65535) (ha : c.author.length ≤ 255) :
    ∃ t2, (c.save).1 =
      [DEFAULT_CART_FILE_VERSION, c.name.length, c.desc.length % 256,
       c.desc.length / 256, c.author.length] ++ c.version :: t2 := by
  obtain ⟨⟨t2, ht⟩, _⟩ := cartridge_save_shape c
  refine ⟨(c.name ++ c.desc ++ c.author) ++ t2, ?_⟩
  rw [ht]
  have e1 : c.name.length % 256 = c.name.length := Nat.mod_eq_of_lt (by omega)
  have e2 : c.desc.length % 65536 = c.desc.length := Nat.mod_eq_of_lt (by omega)
  have e3 : c.author.length % 256 = c.author.length := Nat.mod_eq_of_lt (by omega)
  have e4 : c.desc.length / 256 % 256 = c.desc.length / 256 := Nat.mod_eq_of_lt (by omega)
  rw [e2, e1, e3, e4]
  simp [DEFAULT_CART_FILE_VERSION]

/-- Witness for C7 at a concrete cartridge (version 5, name of two bytes). -/
theorem claim_c7_witness :
    (([104, 105] : List Nat).length ≤ 255 ∧ ([] : List Nat).length ≤ 65535 ∧
     ([] : List Nat).length ≤ 255) ∧
    ∃ t2, (Cartridge.save ⟨5, [104, 105], [], [], [], [], [], [], []⟩).1 =
      [DEFAULT_CART_FILE_VERSION, ([104, 105] : List Nat).length,
       ([] : List Nat).length % 256, ([] : List Nat).length / 256,
       ([] : List Nat).length] ++ 5 :: t2 :=
  ⟨⟨by decide, by decide, by decide⟩,
   claim_c7_header_from_actual_lengths ⟨5, [104, 105], [], [], [], [], [], [], []⟩
     (by decide) (by decide) (by decide)⟩

/-- Counterexample for C10: `Cartridge::save` on a cartridge whose name is 256
bytes long DOES fail (the End-chunk validation bug aborts every save), contrary
to the claim that it never fails. -/
theorem claim_c10_counterexample :
    (Cartridge.save ⟨1, List.replicate 256 97, [], [], [], [], [], [], []⟩).2 ≠ none :=
  (cartridge_save_shape ⟨1, List.replicate 256 97, [], [], [], [], [], [], []⟩).2

/-- Claim C10 as amended: for a name longer than 255 bytes (or a desc longer
than 65535, or an author longer than 255), the string-writing phase of `save`
raises no error — the header records each length reduced by the narrowing cast
(name modulo 256, desc modulo 65536, author modulo 256), so the oversized
field makes the header inconsistent with the full string bytes that are all
written right after — but the `save` call as a whole still returns an error
(from the inverted End-chunk validation), not success. -/
theorem claim_c10_amended (c : Cartridge)
    (hn : 255 < c.name.length ∨ 65535 < c.desc.length ∨ 255 < c.author.length) :
    (c.name.length % 256 ≠ c.name.length ∨ c.desc.length % 65536 ≠ c.desc.length ∨
     c.author.length % 256 ≠ c.author.length) ∧
    (∃ t2, (c.save).1 =
      1 :: (c.name.length % 256) :: (c.desc.length % 65536 % 256) ::
      (c.desc.length % 65536 / 256 % 256) :: (c.author.length % 256) :: c.version ::
      ((c.name ++ c.desc ++ c.author) ++ t2)) ∧
    (c.save).2 ≠ none := by
  refine ⟨?_, (cartridge_save_shape c).1, (cartridge_save_shape c).2⟩
  rcases hn with h | h | h
  · exact .inl (by omega)
  · exact .inr (.inl (by omega))
  · exact .inr (.inr (by omega))

set_option maxRecDepth 4096 in
/-- Witness for the amended C10 at a 256-byte name (left disjunct of the
oversize hypothesis). -/
theorem claim_c10_amended_witness :
    (255 < (List.replicate 256 97).length ∨
     65535 < ([] : List Nat).length ∨ 255 < ([] : List Nat).length) ∧
    (((List.replicate 256 97).length % 256 ≠ (List.replicate 256 97).length ∨
      ([] : List Nat).length % 65536 ≠ ([] : List Nat).length ∨
      ([] : List Nat).length % 256 ≠ ([] : List Nat).length) ∧
     (∃ t2, (Cartridge.save ⟨7, List.replicate 256 97, [], [], [], [], [], [], []⟩).1 =
       1 :: ((List.replicate 256 97).length % 256) ::
       (([] : List Nat).length % 65536 % 256) ::
       (([] : List Nat).length % 65536 / 256 % 256) ::
       (([] : List Nat).length % 256) :: 7 ::
       ((List.replicate 256 97 ++ ([] : List Nat) ++ ([] : List Nat)) ++ t2)) ∧
     (Cartridge.save ⟨7, List.replicate 256 97, [], [], [], [], [], [], []⟩).2 ≠ none) :=
  ⟨.inl (by simp), claim_c10_amended
    ⟨7, List.replicate 256 97, [], [], [], [], [], [], []⟩ (.inl (by simp))⟩

theorem try_from_toByte : ∀ t : ChunkType, ChunkType.try_from t.toByte = .ok t := by
  intro t
  cases t <;> rfl

theorem readU32le_u32le (n : Nat) (rest : List Nat) (h : n < 4294967296) :
    readU32le (u32le n ++ rest) = .ok (n, rest) := by
  show readU32le (n % 256 :: (n / 256 % 256) :: (n / 65536 % 256) ::
    (n / 16777216 % 256) :: rest) = .ok (n, rest)
  simp [readU32le]
  omega

theorem chunk_from_reader_bytes (t : ChunkType) (d rest : List Nat)
    (h32 : d.length < 4294967296)
    (hv : Chunk.validate ⟨⟨t, d.length⟩, d⟩ = none) :
    Chunk.from_reader (chunk_bytes t d ++ rest) = .ok (⟨⟨t, d.length⟩, d⟩, rest) := by
  have hs : chunk_bytes t d ++ rest = t.toByte :: (u32le d.length ++ (d ++ rest)) := by
    simp [chunk_bytes]
  have hh : ChunkHeader.from_reader (t.toByte :: (u32le d.length ++ (d ++ rest))) =
      .ok (⟨t, d.length⟩, d ++ rest) := by
    unfold ChunkHeader.from_reader
    simp [readU8, try_from_toByte, readU32le_u32le _ _ h32]
  have hb := readBytesExact_append d rest
  rw [hs]
  unfold Chunk.from_reader
  rw [hh]
  simp [hb, hv]

theorem validate_code_none (d : List Nat) (hgt : 131072 < d.length)
    (h32 : d.length < 4294967296) :
    Chunk.validate ⟨⟨.Code, d.length⟩, d⟩ = none := by
  unfold Chunk.validate Chunk.chunk_type Chunk.validate_code
  rw [Nat.mod_eq_of_lt h32]
  simp [CODE_CHUNK_MAX_SIZE]
  omega

theorem validate_map_none (d : List Nat) (hgt : 122880 < d.length)
    (h32 : d.length < 4294967296) :
    Chunk.validate ⟨⟨.Map, d.length⟩, d⟩ = none := by
  unfold Chunk.validate Chunk.chunk_type Chunk.validate_map
  rw [Nat.mod_eq_of_lt h32]
  simp [MAP_CHUNK_MAX_SIZE]
  omega

theorem validUtf8_cons_zero (l : List Nat) : validUtf8 (0 :: l) = validUtf8 l := rfl

theorem validUtf8_cons_one (l : List Nat) : validUtf8 (1 :: l) = validUtf8 l := rfl

theorem validUtf8_replicate_zero : ∀ n : Nat, validUtf8 (List.replicate n 0) = true := by
  intro n
  induction n with
  | zero => rfl
  | succ m ih =>
    rw [List.replicate_succ, validUtf8_cons_zero]
    exact ih

theorem validUtf8_replicate_one : ∀ n : Nat, validUtf8 (List.replicate n 1) = true := by
  intro n
  induction n with
  | zero => rfl
  | succ m ih =>
    rw [List.replicate_succ, validUtf8_cons_one]
    exact ih

theorem read_chunks_code {cart : Cartridge} {s rest : List Nat} {c : Chunk}
    (h : Chunk.from_reader s = .ok (c, rest)) (ht : c.chunk_type = .Code)
    (hu : validUtf8 c.data = true) :
    read_chunks cart s = read_chunks { cart with code := c.data } rest := by
  rw [read_chunks.eq_def]
  split
  · rename_i e2 heq
    rw [h] at heq
    cases heq
  · rename_i chunk rest2 heq
    rw [h] at heq
    cases heq
    rw [ht]
    simp [string_from_utf8, hu]

theorem read_chunks_font {cart : Cartridge} {s rest : List Nat} {c : Chunk}
    (h : Chunk.from_reader s = .ok (c, rest)) (ht : c.chunk_type = .Font) :
    read_chunks cart s = read_chunks { cart with font := c.data } rest := by
  rw [read_chunks.eq_def]
  split
  · rename_i e2 heq
    rw [h] at heq
    cases heq
  · rename_i chunk rest2 heq
    rw [h] at heq
    cases heq
    rw [ht]

theorem read_chunks_palette {cart : Cartridge} {s rest : List Nat} {c : Chunk}
    (h : Chunk.from_reader s = .ok (c, rest)) (ht : c.chunk_type = .Palette) :
    read_chunks cart s = read_chunks { cart with palette := c.data } rest := by
  rw [read_chunks.eq_def]
  split
  · rename_i e2 heq
    rw [h] at heq
    cases heq
  · rename_i chunk rest2 heq
    rw [h] at heq
    cases heq
    rw [ht]

theorem read_chunks_map {cart : Cartridge} {s rest : List Nat} {c : Chunk}
    (h : Chunk.from_reader s = .ok (c, rest)) (ht : c.chunk_type = .Map) :
    read_chunks cart s = read_chunks { cart with map := c.data } rest := by
  rw [read_chunks.eq_def]
  split
  · rename_i e2 heq
    rw [h] at heq
    cases heq
  · rename_i chunk rest2 heq
    rw [h] at heq
    cases heq
    rw [ht]

theorem end_chunk_with_payload_from_reader (b : Nat) (rest : List Nat) :
    Chunk.from_reader (0 :: 1 :: 0 :: 0 :: 0 :: b :: rest) =
      .ok (⟨⟨.End, 1⟩, [b]⟩, rest) := rfl

/-- Claim C9: duplicate chunks of the same type are never rejected at decode
time; the payload of each successfully decoded chunk overwrites the
corresponding cartridge field, so the field holds the payload of the last such
chunk. Proved for every dispatch arm of the decode loop — Cover, Code (through
its UTF-8 decoding), Font, Palette and Map — for arbitrary cartridge state,
payloads and continuation stream, and end-to-end through
`Cartridge::from_reader` (the terminating End chunk must carry a 1-byte
payload, since the inverted validation rejects empty ones). -/
theorem claim_c9_duplicate_chunks_last_write_wins :
    (∀ (cart : Cartridge) (d1 d2 rest : List Nat),
      d1.length < 4294967296 → d2.length < 4294967296 →
      Chunk.validate ⟨⟨.Cover, d1.length⟩, d1⟩ = none →
      Chunk.validate ⟨⟨.Cover, d2.length⟩, d2⟩ = none →
      read_chunks cart (chunk_bytes .Cover d1 ++ (chunk_bytes .Cover d2 ++ rest)) =
        read_chunks { cart with cover := d2 } rest) ∧
    (∀ (cart : Cartridge) (d1 d2 rest : List Nat),
      d1.length < 4294967296 → d2.length < 4294967296 →
      Chunk.validate ⟨⟨.Code, d1.length⟩, d1⟩ = none →
      Chunk.validate ⟨⟨.Code, d2.length⟩, d2⟩ = none →
      validUtf8 d1 = true → validUtf8 d2 = true →
      read_chunks cart (chunk_bytes .Code d1 ++ (chunk_bytes .Code d2 ++ rest)) =
        read_chunks { cart with code := d2 } rest) ∧
    (∀ (cart : Cartridge) (d1 d2 rest : List Nat),
      d1.length < 4294967296 → d2.length < 4294967296 →
      Chunk.validate ⟨⟨.Font, d1.length⟩, d1⟩ = none →
      Chunk.validate ⟨⟨.Font, d2.length⟩, d2⟩ = none →
      read_chunks cart (chunk_bytes .Font d1 ++ (chunk_bytes .Font d2 ++ rest)) =
        read_chunks { cart with font := d2 } rest) ∧
    (∀ (cart : Cartridge) (d1 d2 rest : List Nat),
      d1.length < 4294967296 → d2.length < 4294967296 →
      Chunk.validate ⟨⟨.Palette, d1.length⟩, d1⟩ = none →
      Chunk.validate ⟨⟨.Palette, d2.length⟩, d2⟩ = none →
      read_chunks cart (chunk_bytes .Palette d1 ++ (chunk_bytes .Palette d2 ++ rest)) =
        read_chunks { cart with palette := d2 } rest) ∧
    (∀ (cart : Cartridge) (d1 d2 rest : List Nat),
      d1.length < 4294967296 → d2.length < 4294967296 →
      Chunk.validate ⟨⟨.Map, d1.length⟩, d1⟩ = none →
      Chunk.validate ⟨⟨.Map, d2.length⟩, d2⟩ = none →
      read_chunks cart (chunk_bytes .Map d1 ++ (chunk_bytes .Map d2 ++ rest)) =
        read_chunks { cart with map := d2 } rest) ∧
    (∀ (d1 d2 : List Nat),
      d1.length < 4294967296 → d2.length < 4294967296 →
      Chunk.validate ⟨⟨.Cover, d1.length⟩, d1⟩ = none →
      Chunk.validate ⟨⟨.Cover, d2.length⟩, d2⟩ = none →
      Cartridge.from_reader
        (1 :: 0 :: 0 :: 0 :: 0 :: 7 ::
          (chunk_bytes .Cover d1 ++ (chunk_bytes .Cover d2 ++ [0, 1, 0, 0, 0, 42]))) =
        .ok ({ Cartridge.default with version := 7, cover := d2 }, [])) := by
  refine ⟨?_, ?_, ?_, ?_, ?_, ?_⟩
  · intro cart d1 d2 rest h1 h2 hv1 hv2
    rw [read_chunks_cover (chunk_from_reader_bytes .Cover d1 _ h1 hv1) rfl,
      read_chunks_cover (chunk_from_reader_bytes .Cover d2 _ h2 hv2) rfl]
  · intro cart d1 d2 rest h1 h2 hv1 hv2 hu1 hu2
    rw [read_chunks_code (chunk_from_reader_bytes .Code d1 _ h1 hv1) rfl hu1,
      read_chunks_code (chunk_from_reader_bytes .Code d2 _ h2 hv2) rfl hu2]
  · intro cart d1 d2 rest h1 h2 hv1 hv2
    rw [read_chunks_font (chunk_from_reader_bytes .Font d1 _ h1 hv1) rfl,
      read_chunks_font (chunk_from_reader_bytes .Font d2 _ h2 hv2) rfl]
  · intro cart d1 d2 rest h1 h2 hv1 hv2
    rw [read_chunks_palette (chunk_from_reader_bytes .Palette d1 _ h1 hv1) rfl,
      read_chunks_palette (chunk_from_reader_bytes .Palette d2 _ h2 hv2) rfl]
  · intro cart d1 d2 rest h1 h2 hv1 hv2
    rw [read_chunks_map (chunk_from_reader_bytes .Map d1 _ h1 hv1) rfl,
      read_chunks_map (chunk_from_reader_bytes .Map d2 _ h2 hv2) rfl]
  · intro d1 d2 h1 h2 hv1 hv2
    have hstep : Cartridge.from_reader
        (1 :: 0 :: 0 :: 0 :: 0 :: 7 ::
          (chunk_bytes .Cover d1 ++ (chunk_bytes .Cover d2 ++ [0, 1, 0, 0, 0, 42]))) =
        read_chunks { Cartridge.default with version := 7 }
          (chunk_bytes .Cover d1 ++ (chunk_bytes .Cover d2 ++ [0, 1, 0, 0, 0, 42])) := rfl
    rw [hstep,
      read_chunks_cover (chunk_from_reader_bytes .Cover d1 _ h1 hv1) rfl,
      read_chunks_cover (chunk_from_reader_bytes .Cover d2 _ h2 hv2) rfl,
      read_chunks_end (end_chunk_with_payload_from_reader 42 []) rfl]

/-- Witness for C9: concrete duplicate pairs through every loop arm — Cover,
Font and Palette with payloads `[9]` then `[8, 7]`, Code with two oversize
ASCII payloads (the inverted gate only admits Code payloads above 131072
bytes), Map with two oversize payloads, and the Cover case end-to-end. -/
theorem claim_c9_witness :
    (Chunk.validate ⟨⟨.Cover, ([9] : List Nat).length⟩, [9]⟩ = none ∧
     Chunk.validate ⟨⟨.Code, (List.replicate 131073 0).length⟩,
       List.replicate 131073 0⟩ = none ∧
     validUtf8 (List.replicate 131073 0) = true) ∧
    read_chunks Cartridge.default
        (chunk_bytes .Cover [9] ++ (chunk_bytes .Cover [8, 7] ++ [])) =
      read_chunks { Cartridge.default with cover := [8, 7] } [] ∧
    read_chunks Cartridge.default
        (chunk_bytes .Code (List.replicate 131073 0) ++
          (chunk_bytes .Code (List.replicate 131074 1) ++ [])) =
      read_chunks { Cartridge.default with code := List.replicate 131074 1 } [] ∧
    read_chunks Cartridge.default
        (chunk_bytes .Font [9] ++ (chunk_bytes .Font [8, 7] ++ [])) =
      read_chunks { Cartridge.default with font := [8, 7] } [] ∧
    read_chunks Cartridge.default
        (chunk_bytes .Palette [9] ++ (chunk_bytes .Palette [8, 7] ++ [])) =
      read_chunks { Cartridge.default with palette := [8, 7] } [] ∧
    read_chunks Cartridge.default
        (chunk_bytes .Map (List.replicate 122881 0) ++
          (chunk_bytes .Map (List.replicate 122882 0) ++ [])) =
      read_chunks { Cartridge.default with map := List.replicate 122882 0 } [] ∧
    Cartridge.from_reader
        (1 :: 0 :: 0 :: 0 :: 0 :: 7 ::
          (chunk_bytes .Cover [9] ++ (chunk_bytes .Cover [8, 7] ++ [0, 1, 0, 0, 0, 42]))) =
      .ok ({ Cartridge.default with version := 7, cover := [8, 7] }, []) := by
  have lc1 : (List.replicate 131073 0).length = 131073 := by rw [List.length_replicate]
  have lc2 : (List.replicate 131074 1).length = 131074 := by rw [List.length_replicate]
  have lm1 : (List.replicate 122881 0).length = 122881 := by rw [List.length_replicate]
  have lm2 : (List.replicate 122882 0).length = 122882 := by rw [List.length_replicate]
  have hvc1 := validate_code_none (List.replicate 131073 0) (by omega) (by omega)
  have hvc2 := validate_code_none (List.replicate 131074 1) (by omega) (by omega)
  have hvm1 := validate_map_none (List.replicate 122881 0) (by omega) (by omega)
  have hvm2 := validate_map_none (List.replicate 122882 0) (by omega) (by omega)
  have hu1 := validUtf8_replicate_zero 131073
  have hu2 := validUtf8_replicate_one 131074
  obtain ⟨hcov, hcode, hfont, hpal, hmap, hend⟩ :=
    claim_c9_duplicate_chunks_last_write_wins
  refine ⟨⟨by decide, hvc1, hu1⟩, ?_, ?_, ?_, ?_, ?_, ?_⟩
  · exact hcov Cartridge.default [9] [8, 7] [] (by decide) (by decide) (by decide) (by decide)
  · exact hcode Cartridge.default _ _ [] (by omega) (by omega) hvc1 hvc2 hu1 hu2
  · exact hfont Cartridge.default [9] [8, 7] [] (by decide) (by decide) (by decide) (by decide)
  · exact hpal Cartridge.default [9] [8, 7] [] (by decide) (by decide) (by decide) (by decide)
  · exact hmap Cartridge.default _ _ [] (by omega) (by omega) hvm1 hvm2
  · exact hend [9] [8, 7] (by decide) (by decide) (by decide) (by decide)
